import Mathlib

/-!
A verification development for the ingestion-and-routing core of the
3d-city-loader repository.

The embedding below is a shallow one: each Rust function of the core is
translated into a Lean definition over exact arithmetic (`ℚ` where the code
only adds, multiplies and compares; `ℝ` where the code takes square roots or
transcendental functions; `EReal` where the code's IEEE infinities are
observable, namely the `Offset` sentinel).  Machine-float rounding of `f32`/
`f64` is idealized away; all constants are taken at their exact decimal
values.  `HashMap`s are modelled as association lists with insert-or-replace
semantics, and iteration order is the list order.
-/

namespace CityLoader

/-- From `src/earth/mod.rs`: `pub const GLOBAL_SCALE_FACTOR: f32 = 100.0;`. -/
def GLOBAL_SCALE_FACTOR : ℝ := 100

/-- From `src/data/road_type.rs`: the `RoadType` enum (all `highway` tag
categories the code distinguishes). -/
inductive RoadType where
  | Motorway
  | Trunk
  | Primary
  | Secondary
  | Tertiary
  | Unclassified
  | Residential
  | MotorwayLink
  | TrunkLink
  | PrimaryLink
  | SecondaryLink
  | TertiaryLink
  | Footway
  | Steps
  | Path
  | NotCovered
  deriving DecidableEq, Repr

/-- From `src/earth/agent.rs`: the `AgentType` enum. -/
inductive AgentType where
  | Car
  | Pedestrian
  deriving DecidableEq, Repr

/-- From `src/data/traffic_graph.rs`: the `OneWay` enum. -/
inductive OneWay where
  | Yes
  | No
  | Reversed
  deriving DecidableEq, Repr

/-- From `src/data/road_type.rs`: `impl FromStr for RoadType` (total, with
`NotCovered` as the fallback arm; input is lower-cased first). -/
def roadTypeFromStr (s : String) : RoadType :=
  match s.toLower with
  | "motorway" => RoadType.Motorway
  | "trunk" => RoadType.Trunk
  | "primary" => RoadType.Primary
  | "secondary" => RoadType.Secondary
  | "tertiary" => RoadType.Tertiary
  | "residential" => RoadType.Residential
  | "unclassified" => RoadType.Unclassified
  | "motorway_link" => RoadType.MotorwayLink
  | "trunk_link" => RoadType.TrunkLink
  | "primary_link" => RoadType.PrimaryLink
  | "secondary_link" => RoadType.SecondaryLink
  | "tertiary_link" => RoadType.TertiaryLink
  | "footway" => RoadType.Footway
  | "steps" => RoadType.Steps
  | "path" => RoadType.Path
  | _ => RoadType.NotCovered

/-- From `src/data/traffic_graph.rs`: `impl FromStr for OneWay` (total;
unknown values default to two-way). -/
def oneWayFromStr (s : String) : OneWay :=
  match s with
  | "yes" => OneWay.Yes
  | "true" => OneWay.Yes
  | "1" => OneWay.Yes
  | "no" => OneWay.No
  | "false" => OneWay.No
  | "0" => OneWay.No
  | "" => OneWay.No
  | "-1" => OneWay.Reversed
  | "reverse" => OneWay.Reversed
  | _ => OneWay.No

/-- From `src/earth/agent.rs`:
`pub const REFERENCE_SPEED: f32 = 0.01 * GLOBAL_SCALE_FACTOR;`. -/
def REFERENCE_SPEED : ℝ := 0.01 * GLOBAL_SCALE_FACTOR

/-- From `src/data/traffic_graph.rs`:
`const COST_MULTIPLIER_DISALLOWED: f32 = 100.0;`. -/
def COST_MULTIPLIER_DISALLOWED : ℝ := 100

/-- From `src/earth/agent.rs`: `agent_speed_on_road_type`.  Cars get a
road-type dependent multiplier of the reference speed (default arm `6.0`);
pedestrians always move at the reference speed. -/
def agent_speed_on_road_type (reference_speed : ℝ) (agent_type : AgentType)
    (road_type : RoadType) : ℝ :=
  match agent_type with
  | AgentType.Car =>
    let multiplier : ℝ :=
      match road_type with
      | RoadType.Motorway => 24
      | RoadType.Trunk => 24
      | RoadType.Primary => 20
      | RoadType.Secondary => 16
      | RoadType.Tertiary => 12
      | RoadType.Residential => 6
      | RoadType.Unclassified => 6
      | _ => 6
    multiplier * reference_speed
  | AgentType.Pedestrian => reference_speed

/-- From `src/data/traffic_graph.rs`: `road_type_allowed_for_agent_type`. -/
def road_type_allowed_for_agent_type (road_type : RoadType)
    (agent_type : AgentType) : Bool :=
  match agent_type with
  | AgentType.Car =>
    match road_type with
    | RoadType.Motorway => true
    | RoadType.Trunk => true
    | RoadType.Primary => true
    | RoadType.Secondary => true
    | RoadType.Tertiary => true
    | RoadType.Residential => true
    | RoadType.TrunkLink => true
    | RoadType.PrimaryLink => true
    | RoadType.SecondaryLink => true
    | RoadType.TertiaryLink => true
    | RoadType.MotorwayLink => true
    | RoadType.NotCovered => true
    | _ => false
  | AgentType.Pedestrian =>
    match road_type with
    | RoadType.Tertiary => true
    | RoadType.Residential => true
    | RoadType.Footway => true
    | RoadType.Steps => true
    | RoadType.Path => true
    | RoadType.Unclassified => true
    | RoadType.NotCovered => true
    | _ => false

/-- Planar points (`bevy::math::Vec2`, idealized from `f32` to `ℝ`). -/
abbrev Vec2 : Type := ℝ × ℝ

/-- The expression `(from_location - to_location).length()`: Euclidean length of the
difference of two planar points. -/
noncomputable def vec2Dist (a b : Vec2) : ℝ :=
  Real.sqrt ((a.1 - b.1) ^ 2 + (a.2 - b.2) ^ 2)

/-- The edge-cost closure of `TrafficGraph::get_shortest_path`
(`src/data/traffic_graph.rs`, lines 105-119): start from the stored distance,
multiply by `COST_MULTIPLIER_DISALLOWED` when the road type is not allowed
for the agent type, then divide by the agent's speed on that road type. -/
noncomputable def get_shortest_path_edge_cost (weight : ℝ × RoadType)
    (agent_type : AgentType) : ℝ :=
  let road_type := weight.2
  let w := weight.1
  let w :=
    if road_type_allowed_for_agent_type road_type agent_type then w
    else w * COST_MULTIPLIER_DISALLOWED
  w / agent_speed_on_road_type REFERENCE_SPEED agent_type road_type

/-- The heuristic closure of `TrafficGraph::get_shortest_path` is the
straight-line planar distance to the goal location; on an edge's own
endpoints it is exactly `vec2Dist` of the two endpoint locations, which is
also the distance stored on the edge by `add_connection`. -/
noncomputable def get_shortest_path_heuristic (location goal_location : Vec2) : ℝ :=
  vec2Dist goal_location location

/-! ### Polygon simplification (`src/earth/simplification.rs`)

The simplifier only adds, subtracts, multiplies and compares coordinates, so
it is embedded over exact `ℚ` points and is fully executable. -/

/-- Exact-arithmetic planar point for the simplifier. -/
abbrev QVec2 : Type := ℚ × ℚ

/-- From `src/earth/simplification.rs`: `triangle_area` (half the absolute
shoelace value of the three points). -/
def triangle_area (previous_point current_point next_point : QVec2) : ℚ :=
  (1 / 2) * |previous_point.1 * (current_point.2 - next_point.2)
    + current_point.1 * (next_point.2 - previous_point.2)
    + next_point.1 * (previous_point.2 - current_point.2)|

/-- From `src/earth/simplification.rs`: `calculate_triangle_area_at_pos`
(area of the triangle at cyclic position `i`). -/
def calculate_triangle_area_at_pos (polygon : List QVec2) (i : ℕ) : ℚ :=
  let previous_point := polygon.getD ((i + polygon.length - 1) % polygon.length) (0, 0)
  let current_point := polygon.getD i (0, 0)
  let next_point := polygon.getD ((i + 1) % polygon.length) (0, 0)
  triangle_area previous_point current_point next_point

/-- The linear minimum scan of the `while` loop in `simplify_polygon`:
`min_area` starts at `f32::MAX` and is replaced on strict `<`, so on a
nonempty list the result is the first occurrence of the minimum.  The
sentinel is modelled by seeding the scan with element `0` (every actual
area is below `f32::MAX`). -/
def minAreaScan : List ℚ → ℕ → ℚ → ℕ → ℚ × ℕ
  | [], _, best_area, best_index => (best_area, best_index)
  | a :: rest, i, best_area, best_index =>
    if a < best_area then minAreaScan rest (i + 1) a i
    else minAreaScan rest (i + 1) best_area best_index

/-- Find the smallest triangle area and its index (first occurrence), as the
scan at the top of the `while` loop of `simplify_polygon` does.  The empty
case is unreachable: the loop only runs with at least five areas. -/
def findMinArea (areas : List ℚ) : ℚ × ℕ :=
  match areas with
  | [] => (0, 0)
  | a :: rest => minAreaScan rest 1 a 0

/-- The `while polygon.len() > 4` loop of `simplify_polygon`.  Each pass
removes one vertex, so the initial length bounds the number of iterations;
`fuel` carries that bound (the Rust loop terminates for the same reason). -/
def simplifyLoop : ℕ → List QVec2 → List ℚ → ℚ → List QVec2
  | 0, polygon, _, _ => polygon
  | fuel + 1, polygon, areas, threshold =>
    if polygon.length > 4 then
      let m := findMinArea areas
      let min_area := m.1
      let min_index := m.2
      if min_area > threshold then polygon
      else
        let polygon' := polygon.eraseIdx min_index
        let areas' := areas.eraseIdx min_index
        let previous_index := (min_index + polygon'.length - 1) % polygon'.length
        let next_index := min_index % polygon'.length
        let areas'' :=
          (areas'.set previous_index
              (calculate_triangle_area_at_pos polygon' previous_index)).set
            next_index (calculate_triangle_area_at_pos polygon' next_index)
        simplifyLoop fuel polygon' areas'' threshold
    else polygon

/-- From `src/earth/simplification.rs`: `simplify_polygon`
(Visvalingam-Whyatt).  Polygons of fewer than 4 points are returned as is;
otherwise all cyclic triangle areas are precomputed (the code's rolling
`previous/current/next` walk computes exactly
`calculate_triangle_area_at_pos` at each index) and the removal loop runs. -/
def simplify_polygon (polygon : List QVec2) (threshold : ℚ) : List QVec2 :=
  if polygon.length < 4 then polygon
  else
    let areas := (List.range polygon.length).map
      (fun i => calculate_triangle_area_at_pos polygon i)
    simplifyLoop polygon.length polygon areas threshold

/-! ### Offset, projection and chunk index (`src/data/geography.rs`)

`Offset` holds `f64` values whose infinities are observable (the default is
`(NEG_INFINITY, NEG_INFINITY)`), so its fields are modelled as `EReal`.
Every projection call site in the code supplies a finite offset (the parser
uses a literal zero offset; `update_earth` recentres away from the sentinel
before projecting), so `project` reads the offset through `EReal.toReal`. -/

/-- From `src/data/geography.rs`: the `Offset` struct (`x`, `y` are `f64`). -/
structure Offset where
  x : EReal
  y : EReal

/-- From `src/data/geography.rs`: `impl Default for Offset` — the sentinel
`(NEG_INFINITY, NEG_INFINITY)`. -/
def Offset.default : Offset := { x := ⊥, y := ⊥ }

/-- From `src/earth/mod.rs`:
`pub const MAX_DISTANCE: f64 = 0.083291353581523;`. -/
def MAX_DISTANCE : ℝ := 0.083291353581523

/-- Models `f64::sqrt` on the values arising in the recentring computation:
`sqrt(+∞) = +∞`, and the exact real square root on finite values. -/
noncomputable def erealSqrt (x : EReal) : EReal :=
  if x = ⊤ then ⊤ else ((Real.sqrt x.toReal : ℝ) : EReal)

/-- The recentring distance computation of `update_earth`
(`src/earth/mod.rs`, lines 113-115):
`((candidate.x - offset.x).powi(2) + (candidate.y - offset.y).powi(2)).sqrt()`. -/
noncomputable def offset_distance (candidate offset : Offset) : EReal :=
  erealSqrt ((candidate.x - offset.x) ^ 2 + (candidate.y - offset.y) ^ 2)

/-- From `src/data/geography.rs`: the `GeoLocation` struct.  Coordinates read
from JSON are modelled exactly as rationals. -/
structure GeoLocation where
  longitude : ℚ
  latitude : ℚ
  deriving DecidableEq, Repr

/-- From `src/data/geography.rs`: `const LATITUDAL_SCALE_FACTOR: f64 = 64000.0 * GLOBAL_SCALE_FACTOR;`. -/
def LATITUDAL_SCALE_FACTOR : ℝ := 64000 * GLOBAL_SCALE_FACTOR

/-- From `src/data/geography.rs`: `const LONGITUDAL_SCALE_FACTOR: f64 = 64000.0 * GLOBAL_SCALE_FACTOR;`. -/
def LONGITUDAL_SCALE_FACTOR : ℝ := 64000 * GLOBAL_SCALE_FACTOR

/-- From `src/data/geography.rs`: `GeoLocation::project` — linear in
longitude, Mercator-like in latitude (`tan`, then inverse hyperbolic sine),
offset-subtracted and scaled. -/
noncomputable def GeoLocation.project (l : GeoLocation) (offset : Offset) : Vec2 :=
  let x := (((l.longitude : ℝ) + 180) / 360 - offset.x.toReal) * LONGITUDAL_SCALE_FACTOR
  let lat_radians := (l.latitude : ℝ) / 180 * Real.pi
  let y := ((1 - Real.arsinh (Real.tan lat_radians) / Real.pi) / 2 - offset.y.toReal)
    * LATITUDAL_SCALE_FACTOR
  (x, y)

/-- From `src/data/geography.rs`: `GeoLocation::project_no_scale` — the same
nonlinear mapping without offset subtraction or scaling; used only to compute
candidate offsets. -/
noncomputable def GeoLocation.project_no_scale (l : GeoLocation) : ℝ × ℝ :=
  let x := ((l.longitude : ℝ) + 180) / 360
  let lat_radians := (l.latitude : ℝ) / 180 * Real.pi
  let y := (1 - Real.arsinh (Real.tan lat_radians) / Real.pi) / 2
  (x, y)

/-- From `src/data/geography.rs`: `const CHUNK_SIZE: f32 = 8.0 * GLOBAL_SCALE_FACTOR;`. -/
def CHUNK_SIZE : ℝ := 8 * GLOBAL_SCALE_FACTOR

/-- From `src/data/geography.rs`: the `ChunkIndex` struct (`i64` tile
coordinates). -/
structure ChunkIndex where
  x : ℤ
  z : ℤ
  deriving DecidableEq, Repr

/-- From `src/data/geography.rs`: `ChunkIndex::from_vec2` — floor division of
each planar axis by the tile size. -/
noncomputable def ChunkIndex.from_vec2 (coords : Vec2) : ChunkIndex :=
  { x := ⌊coords.1 / CHUNK_SIZE⌋, z := ⌊coords.2 / CHUNK_SIZE⌋ }

/-! ### The geography data model (`src/data/geography.rs`)

`HashMap`s are association lists; `alistInsert` is insert-or-replace. -/

/-- Insert-or-replace for association lists (`HashMap::insert`).  A fresh key
is appended at the end, so insertion order is preserved. -/
def alistInsert {α β : Type} [DecidableEq α] :
    List (α × β) → α → β → List (α × β)
  | [], k, v => [(k, v)]
  | (k', v') :: rest, k, v =>
    if k' = k then (k, v) :: rest else (k', v') :: alistInsert rest k v

/-- Tag maps (`HashMap<String, String>`). -/
abbrev Tags : Type := List (String × String)

/-- From `src/data/geography.rs`: the `GeoNode` struct. -/
structure GeoNode where
  tags : Tags
  deriving DecidableEq, Repr

/-- The common shape of `BuildingFeature`, `RoadFeature`, `LandUseFeature`,
`LakeFeature` and `RiverFeature` (structurally identical in the source):
an ordered member-node-id list plus tags. -/
structure Feature where
  nodes : List ℕ
  tags : Tags
  deriving DecidableEq, Repr

/-- The `RoadFeature` struct (structurally `Feature`, see above). -/
abbrev RoadFeature : Type := Feature

/-- From `src/data/geography.rs`: the `Chunk` struct (per-tile buckets of
features, lazily created with all collections empty). -/
structure Chunk where
  nodes : List (ℕ × GeoNode) := []
  building_features : List (ℕ × Feature) := []
  road_features : List (ℕ × Feature) := []
  land_use_features : List (ℕ × Feature) := []
  lake_features : List (ℕ × Feature) := []
  river_features : List (ℕ × Feature) := []
  deriving DecidableEq, Repr

/-- From `src/data/geography.rs`: the `GeoData` struct. -/
structure GeoData where
  node_locations : List (ℕ × GeoLocation)
  chunks : List (ChunkIndex × Chunk)

/-- From `src/data/geography.rs`: the `FeatureType` enum. -/
inductive FeatureType where
  | Building
  | Road
  | LandUse
  | Lake
  | River
  deriving DecidableEq, Repr

/-- Models `chunks.entry(index).or_insert(Chunk::default())` followed by a mutation
of the found-or-created chunk. -/
def chunksModify : List (ChunkIndex × Chunk) → ChunkIndex → (Chunk → Chunk) →
    List (ChunkIndex × Chunk)
  | [], index, f => [(index, f {})]
  | (k, c) :: rest, index, f =>
    if k = index then (k, f c) :: rest else (k, c) :: chunksModify rest index f

/-- Dispatch of the `match feature_type` insertion in `convert_osm_json`:
store the feature in the collection selected by its classified type. -/
def Chunk.insertFeature (c : Chunk) (feature_type : FeatureType) (id : ℕ)
    (f : Feature) : Chunk :=
  match feature_type with
  | FeatureType.Building => { c with building_features := alistInsert c.building_features id f }
  | FeatureType.Road => { c with road_features := alistInsert c.road_features id f }
  | FeatureType.LandUse => { c with land_use_features := alistInsert c.land_use_features id f }
  | FeatureType.Lake => { c with lake_features := alistInsert c.lake_features id f }
  | FeatureType.River => { c with river_features := alistInsert c.river_features id f }

/-! ### JSON values and errors (`serde_json`, `src/common.rs`)

A `serde_json::Value`; numbers are modelled as exact rationals (the code's
`truncate_to_f64` normalizes the `u64`/`i64`/`f64` encodings to one numeric
value, which the rational is). -/

/-- A JSON value. -/
inductive Json where
  | null
  | bool (b : Bool)
  | num (q : ℚ)
  | str (s : String)
  | arr (elems : List Json)
  | obj (fields : List (String × Json))

/-- Models `serde_json::Map::get`: first field with the given key. -/
def jsonGet (fields : List (String × Json)) (key : String) : Option Json :=
  fields.lookup key

/-- Models `serde_json::Number::is_u64` on the rational model: an integer in
`[0, 2^64)`. -/
def numIsU64 (q : ℚ) : Prop := q.den = 1 ∧ 0 ≤ q.num ∧ q.num < 2 ^ 64

instance (q : ℚ) : Decidable (numIsU64 q) := by
  unfold numIsU64
  infer_instance

/-- From `src/common.rs`: the `DataFormat` enum. -/
inductive DataFormat where
  | OsmJson
  | GeoJson
  deriving DecidableEq, Repr

/-- From `src/common.rs`: the `AppError` enum (HTTP status codes as `ℕ`). -/
inductive AppError where
  | InputSyntax (message : String)
  | Io (url : Option String) (status : Option ℕ) (message : String)
  | DataSyntax (format : DataFormat) (line : Option ℕ) (character : Option ℕ)
      (message : String)
  | MissingData (message : String)
  deriving DecidableEq, Repr

/-- The `error` helper of `src/data/geography.rs`: a `DataSyntax` error for
the OSM JSON format with no location information. -/
def geoError (message : String) : AppError :=
  AppError.DataSyntax DataFormat.OsmJson none none message

/-! ### The OSM JSON parser (`src/data/geography.rs`, `convert_osm_json`) -/

/-- From `src/data/geography.rs`: `truncate_to_f64` — normalizes any JSON
numeric encoding to one numeric value (the identity on the rational model). -/
def truncate_to_f64 (number : ℚ) : ℚ := number

/-- From `src/data/geography.rs`: `get_element_type` — the `type` field,
which must be present and a string. -/
def get_element_type (element_object : List (String × Json)) :
    Except AppError String :=
  match jsonGet element_object "type" with
  | some (Json.str string) => Except.ok string
  | _ => Except.error (geoError "an element must have a `type` tag that is a string")

/-- From `src/data/geography.rs`: `get_id` — the `id` field, which must be
present and a nonnegative integer (a `u64`). -/
def get_id (element_object : List (String × Json)) : Except AppError ℕ :=
  match jsonGet element_object "id" with
  | some (Json.num number) =>
    if numIsU64 number then Except.ok number.num.toNat
    else Except.error (geoError "an element must have an `id` tag that is a nonnegative integer")
  | _ => Except.error (geoError "an element must have an `id` tag that is a nonnegative integer")

/-- The string-collecting loop of `get_tags`: every tag value must be a
string. -/
def getTagsList : List (String × Json) → Except AppError Tags
  | [] => Except.ok []
  | (key, Json.str string) :: rest =>
    match getTagsList rest with
    | Except.ok tags => Except.ok ((key, string) :: tags)
    | Except.error e => Except.error e
  | _ :: _ => Except.error (geoError "`tags` field must be a map from strings to strings")

/-- From `src/data/geography.rs`: `get_tags` — an absent `tags` field yields
the empty map, a non-object `tags` field is an error, and all values must be
strings. -/
def get_tags (element_object : List (String × Json)) : Except AppError Tags :=
  match jsonGet element_object "tags" with
  | some (Json.obj fields) => getTagsList fields
  | some _ => Except.error (geoError "`tags` field must be an object")
  | none => Except.ok []

/-- From `src/data/geography.rs`: `parse_u64_array` — all members must be
nonnegative integers fitting `u64`. -/
def parse_u64_array : List Json → Option (List ℕ)
  | [] => some []
  | Json.num q :: rest =>
    if numIsU64 q then
      match parse_u64_array rest with
      | some result => some (q.num.toNat :: result)
      | none => none
    else none
  | _ :: _ => none

/-- From `src/data/geography.rs`: `find_feature_type` — tag-priority
classification of a way. -/
def find_feature_type (tags : Tags) : Option FeatureType :=
  if (tags.lookup "building").isSome then some FeatureType.Building
  else if (tags.lookup "waterway").isSome then some FeatureType.River
  else if (tags.lookup "highway").isSome then some FeatureType.Road
  else if (tags.lookup "landuse").isSome then some FeatureType.LandUse
  else if tags.lookup "natural" = some "water" then some FeatureType.Lake
  else none

/-- Error-propagating left fold: the loop shape of both passes of
`convert_osm_json` (abort at the first error). -/
def foldE {σ α : Type} (f : σ → α → Except AppError σ) :
    σ → List α → Except AppError σ
  | s, [] => Except.ok s
  | s, x :: xs =>
    match f s x with
    | Except.ok s' => foldE f s' xs
    | Except.error e => Except.error e

/-- One element of pass 1 of `convert_osm_json`: for a "node" element with
both a numeric `lon` and `lat`, record its location; nodes without numeric
coordinates are skipped; structural violations abort. -/
def pass1Step (node_locations : List (ℕ × GeoLocation)) (element : Json) :
    Except AppError (List (ℕ × GeoLocation)) :=
  match element with
  | Json.obj element_object =>
    match get_element_type element_object with
    | Except.error e => Except.error e
    | Except.ok element_type =>
      if element_type = "node" then
        match get_id element_object with
        | Except.error e => Except.error e
        | Except.ok id =>
          match jsonGet element_object "lon" with
          | some (Json.num lon) =>
            match jsonGet element_object "lat" with
            | some (Json.num lat) =>
              Except.ok (alistInsert node_locations id
                { longitude := truncate_to_f64 lon, latitude := truncate_to_f64 lat })
            | _ => Except.ok node_locations
          | _ => Except.ok node_locations
      else Except.ok node_locations
  | _ => Except.error (geoError "an element in the `elements` array must be an object")

/-- The node-averaging loop of the "way" branch of pass 2: running sums of
longitude and latitude and the count, over the member ids that resolve. -/
def sumLocs (node_locations : List (ℕ × GeoLocation)) (nodes : List ℕ) :
    ℚ × ℚ × ℕ :=
  nodes.foldl
    (fun acc id =>
      match node_locations.lookup id with
      | some location =>
        (acc.1 + location.longitude, acc.2.1 + location.latitude, acc.2.2 + 1)
      | none => acc)
    (0, 0, 0)

/-- One element of pass 2 of `convert_osm_json`.  The non-object arm is
unreachable when run after a successful pass 1 (the code unwraps there); it
is modelled by the same object-shape error as pass 1. -/
noncomputable def pass2Step (node_locations : List (ℕ × GeoLocation))
    (chunks : List (ChunkIndex × Chunk)) (element : Json) :
    Except AppError (List (ChunkIndex × Chunk)) :=
  match element with
  | Json.obj element_object =>
    match get_element_type element_object with
    | Except.error e => Except.error e
    | Except.ok element_type =>
      match get_id element_object with
      | Except.error e => Except.error e
      | Except.ok id =>
        match get_tags element_object with
        | Except.error e => Except.error e
        | Except.ok tags =>
          match element_type with
          | "node" =>
            if tags = [] then Except.ok chunks
            else
              match node_locations.lookup id with
              | some location =>
                let chunk := ChunkIndex.from_vec2
                  (location.project { x := 0, y := 0 })
                Except.ok (chunksModify chunks chunk
                  (fun c => { c with nodes := alistInsert c.nodes id { tags := tags } }))
              | none => Except.error (geoError "node has tags but no location")
          | "way" =>
            match jsonGet element_object "nodes" with
            | some (Json.arr nodes_field) =>
              match parse_u64_array nodes_field with
              | none => Except.error (geoError "`nodes` array must not contain non-integral values")
              | some nodes =>
                match find_feature_type tags with
                | none => Except.ok chunks
                | some feature_type =>
                  let s := sumLocs node_locations nodes
                  if s.2.2 = 0 then Except.ok chunks
                  else
                    let avg : GeoLocation :=
                      { longitude := s.1 / (s.2.2 : ℚ), latitude := s.2.1 / (s.2.2 : ℚ) }
                    let index := ChunkIndex.from_vec2 (avg.project { x := 0, y := 0 })
                    Except.ok (chunksModify chunks index
                      (fun c => c.insertFeature feature_type id { nodes := nodes, tags := tags }))
            | _ => Except.error (geoError "a \"way\" element must have a `nodes` key")
          | "relation" => Except.ok chunks
          | _ => Except.ok chunks
  | _ => Except.error (geoError "an element in the `elements` array must be an object")

/-- From `src/data/geography.rs`: `convert_osm_json` — structural root and
`elements` checks, then the two passes. -/
noncomputable def convert_osm_json (json : Json) : Except AppError GeoData :=
  match json with
  | Json.obj root_object =>
    match jsonGet root_object "elements" with
    | some (Json.arr elements) =>
      match foldE pass1Step [] elements with
      | Except.error e => Except.error e
      | Except.ok node_locations =>
        match foldE (pass2Step node_locations) [] elements with
        | Except.error e => Except.error e
        | Except.ok chunks =>
          Except.ok { node_locations := node_locations, chunks := chunks }
    | _ => Except.error (geoError "OSM JSON root needs to have an `elements` key that is an array")
  | _ => Except.error (geoError "OSM JSON root must be an object")

/-! ### The traffic graph (`src/data/traffic_graph.rs`)

A `petgraph::Graph` as an arena: `vertices` is the append-only vertex list
(a vertex handle is its position), `edges` is the list of directed edges
`(from, to, distance, road_type)` in insertion order (parallel edges are
kept), and `idMap` is the OSM-id-to-handle hash map. -/

/-- The `TrafficGraph` struct. -/
structure TrafficGraph where
  vertices : List Vec2
  edges : List (ℕ × ℕ × ℝ × RoadType)
  idMap : List (ℕ × ℕ)

/-- From `src/data/traffic_graph.rs`: `impl Default for TrafficGraph`, the empty graph. -/
def TrafficGraph.default : TrafficGraph :=
  { vertices := [], edges := [], idMap := [] }

/-- From `src/data/traffic_graph.rs`: `TrafficGraph::add_node` — return the
existing handle if the OSM id was seen before, otherwise append a new vertex
(whose handle is the previous vertex count) and record the mapping. -/
def TrafficGraph.add_node (g : TrafficGraph) (osm_id : ℕ) (location : Vec2) :
    TrafficGraph × ℕ :=
  match g.idMap.lookup osm_id with
  | some index => (g, index)
  | none =>
    let index := g.vertices.length
    ({ g with
        vertices := g.vertices ++ [location],
        idMap := g.idMap ++ [(osm_id, index)] },
      index)

/-- From `src/data/traffic_graph.rs`: `TrafficGraph::add_connection` —
compute the Euclidean distance of the two locations, ensure both endpoints
exist via `add_node`, then append one or two directed edges according to
`oneway`, each carrying `(distance, road_type)`. -/
noncomputable def TrafficGraph.add_connection (g : TrafficGraph)
    (from_id : ℕ) (from_location : Vec2) (to_id : ℕ) (to_location : Vec2)
    (oneway : OneWay) (road_type : RoadType) : TrafficGraph :=
  let distance := vec2Dist from_location to_location
  let p1 := g.add_node from_id from_location
  let p2 := p1.1.add_node to_id to_location
  let g2 := p2.1
  let from_index := p1.2
  let to_index := p2.2
  match oneway with
  | OneWay.Yes =>
    { g2 with edges := g2.edges ++ [(from_index, to_index, distance, road_type)] }
  | OneWay.No =>
    { g2 with edges := g2.edges
        ++ [(from_index, to_index, distance, road_type),
            (to_index, from_index, distance, road_type)] }
  | OneWay.Reversed =>
    { g2 with edges := g2.edges ++ [(to_index, from_index, distance, road_type)] }

/-- From `src/data/traffic_graph.rs`: `TrafficGraph::reset`, clear vertices, edges and the id map. -/
def TrafficGraph.reset (_g : TrafficGraph) : TrafficGraph :=
  TrafficGraph.default

/-- From `src/data/traffic_graph.rs`: `TrafficGraph::get_size`, the vertex count. -/
def TrafficGraph.get_size (g : TrafficGraph) : ℕ :=
  g.vertices.length

/-- The per-vertex walk of `update_traffic_graph` over one road feature's
ordered node-id list, carrying the "last resolvable node" cursor.  Besides
the resulting graph it returns the trace of `add_connection` calls as
`(from OSM id, to OSM id)` pairs, which is what the claims about the walk
quantify over. -/
noncomputable def update_traffic_graph_walk
    (node_locations : List (ℕ × GeoLocation)) (offset : Offset)
    (oneway : OneWay) (road_type : RoadType) :
    TrafficGraph → Option (ℕ × Vec2) → List ℕ → TrafficGraph × List (ℕ × ℕ)
  | g, _, [] => (g, [])
  | g, last, osm_vertex_id :: rest =>
    match node_locations.lookup osm_vertex_id with
    | none =>
      -- we do not know the location of this node: skip, cursor unchanged
      update_traffic_graph_walk node_locations offset oneway road_type g last rest
    | some geolocation =>
      let location := geolocation.project offset
      let g1 := (g.add_node osm_vertex_id location).1
      match last with
      | none =>
        update_traffic_graph_walk node_locations offset oneway road_type g1
          (some (osm_vertex_id, location)) rest
      | some (last_node, last_location) =>
        let g2 := g1.add_connection last_node last_location
          osm_vertex_id location oneway road_type
        let r := update_traffic_graph_walk node_locations offset oneway road_type g2
          (some (osm_vertex_id, location)) rest
        (r.1, (last_node, osm_vertex_id) :: r.2)

/-- The per-road body of `update_traffic_graph`: read the `oneway` and
`highway` tags with their total fallbacks, then walk the node list. -/
noncomputable def update_traffic_graph_road
    (node_locations : List (ℕ × GeoLocation)) (road : RoadFeature)
    (g : TrafficGraph) (offset : Offset) : TrafficGraph :=
  let oneway :=
    match road.tags.lookup "oneway" with
    | some value => oneWayFromStr value
    | none => OneWay.No
  let road_type :=
    match road.tags.lookup "highway" with
    | some value => roadTypeFromStr value
    | none => RoadType.NotCovered
  (update_traffic_graph_walk node_locations offset oneway road_type g none road.nodes).1

/-- From `src/data/traffic_graph.rs`: `update_traffic_graph` — loop over the
road features of a chunk and add their connections to the graph. -/
noncomputable def update_traffic_graph (node_locations : List (ℕ × GeoLocation))
    (road_features : List (ℕ × RoadFeature)) (g : TrafficGraph)
    (offset : Offset) : TrafficGraph :=
  road_features.foldl
    (fun gacc road => update_traffic_graph_road node_locations road.2 gacc offset) g

/-! ### Recentring (`src/earth/mod.rs`) -/

/-- The median component of `find_bounds` (`src/earth/mod.rs`): sort the
node locations by `latitude + longitude` (ascending, stable) and take the
middle element, the lower middle for an even count; `(0, 0)` when there are
no nodes.  (The min/max corners that `find_bounds` also returns feed only
the out-of-scope base-plane sizing and are not modelled.) -/
def find_bounds_median (data : GeoData) : GeoLocation :=
  let loc_sums := data.node_locations.map
    (fun p => (p.2, p.2.latitude + p.2.longitude))
  let sorted := loc_sums.mergeSort (fun a b => decide (a.2 ≤ b.2))
  if data.node_locations.isEmpty then { longitude := 0, latitude := 0 }
  else
    let mid := sorted.length / 2
    let median_location :=
      if sorted.length % 2 = 0 then
        (sorted.getD (mid - 1) ({ longitude := 0, latitude := 0 }, 0)).1
      else (sorted.getD mid ({ longitude := 0, latitude := 0 }, 0)).1
    { longitude := median_location.longitude, latitude := median_location.latitude }

/-- The candidate offset of `update_earth`: the unscaled projection of the
batch's median node location. -/
noncomputable def offset_candidate (data : GeoData) : Offset :=
  let avg := find_bounds_median data
  { x := (avg.project_no_scale.1 : EReal), y := (avg.project_no_scale.2 : EReal) }

/-- The per-chunk traffic-graph rebuild loop of `update_earth`: fold
`update_traffic_graph` over every chunk's road features with the current
offset. -/
noncomputable def rebuild_graph (data : GeoData) (offset : Offset)
    (g : TrafficGraph) : TrafficGraph :=
  data.chunks.foldl
    (fun gacc chunk =>
      update_traffic_graph data.node_locations chunk.2.road_features gacc offset) g

/-- The recentring-and-graph core of `update_earth` (`src/earth/mod.rs`,
lines 99-170) for one ingested batch: compute the candidate offset from the
median node location, clear the traffic graph and install the candidate when
the distance to the active offset exceeds `MAX_DISTANCE`, then add every
chunk's road features to the (kept or reset) graph using the (kept or
replaced) offset. -/
noncomputable def update_earth_step (offset_resource : Offset)
    (traffic_graph : TrafficGraph) (data : GeoData) : Offset × TrafficGraph :=
  let candidate := offset_candidate data
  let distance := offset_distance candidate offset_resource
  if distance > (MAX_DISTANCE : EReal) then
    (candidate, rebuild_graph data candidate traffic_graph.reset)
  else
    (offset_resource, rebuild_graph data offset_resource traffic_graph)

/-! ### Auxiliary notions used by the statements -/

/-- The list of consecutive pairs of a list: `[a, b, c] ↦ [(a, b), (b, c)]`.
The walk over a road's node list is claimed to add exactly the consecutive
pairs of the resolvable subsequence. -/
def adjacentPairs (l : List ℕ) : List (ℕ × ℕ) :=
  l.zip l.tail

/-- Holds when `h` extends `g`: everything stored in `g` is still there, new vertices
and edges are only appended ("kept and only added to"). -/
def TrafficGraph.Grows (g h : TrafficGraph) : Prop :=
  (∃ vs, h.vertices = g.vertices ++ vs) ∧ (∃ es, h.edges = g.edges ++ es)

/-- The traffic-graph states reachable through the mutating API
(`Default::default`, `add_node`, `add_connection`, `reset`); the invariant
claims quantify over these. -/
inductive ReachableGraph : TrafficGraph → Prop where
  | base : ReachableGraph TrafficGraph.default
  | add_node (g : TrafficGraph) (osm_id : ℕ) (location : Vec2) :
      ReachableGraph g → ReachableGraph (g.add_node osm_id location).1
  | add_connection (g : TrafficGraph) (from_id : ℕ) (from_location : Vec2)
      (to_id : ℕ) (to_location : Vec2) (oneway : OneWay) (road_type : RoadType) :
      ReachableGraph g →
      ReachableGraph (g.add_connection from_id from_location to_id to_location
        oneway road_type)
  | reset (g : TrafficGraph) : ReachableGraph g → ReachableGraph g.reset

/-- Well-formedness of the id map: handles point into the vertex arena, and
both the external ids and the handles are duplicate-free. -/
def TrafficGraph.WF (g : TrafficGraph) : Prop :=
  (∀ p ∈ g.idMap, p.2 < g.vertices.length) ∧
    (g.idMap.map Prod.snd).Nodup ∧ (g.idMap.map Prod.fst).Nodup

/-! ### Concrete inputs used by counterexamples and witnesses -/

/-- The 5-point square with one extra colinear midpoint on its bottom edge. -/
def squareWithMidpoint : List QVec2 :=
  [(0, 0), (1, 0), (2, 0), (2, 2), (0, 2)]

/-- The 4 corner points of that square. -/
def squareCorners : List QVec2 :=
  [(0, 0), (2, 0), (2, 2), (0, 2)]

/-- A two-vertex graph holding one two-way motorway connection of length 1. -/
noncomputable def motorwayExampleGraph : TrafficGraph :=
  TrafficGraph.default.add_connection 1 (0, 0) 2 (1, 0) OneWay.No RoadType.Motorway

/-- A reachable graph with two vertices, for instantiating the id-map
invariants. -/
def exampleReachableGraph : TrafficGraph :=
  ((TrafficGraph.default.add_node 5 (0, 0)).1.add_node 7 (1, 1)).1

/-- A one-node batch for instantiating the recentring behavior. -/
def exampleBatch : GeoData :=
  { node_locations := [(1, { longitude := 0, latitude := 0 })], chunks := [] }

/-- A concrete "way" element with one member node, id 7. -/
def exampleWayObj : List (String × Json) :=
  [("type", Json.str "way"), ("id", Json.num 4),
    ("tags", Json.obj [("highway", Json.str "x")]),
    ("nodes", Json.arr [Json.num 7])]

/-- A node-location table resolving id 7. -/
def exampleWayLocs : List (ℕ × GeoLocation) :=
  [(7, { longitude := 1, latitude := 2 })]

/-- The resolvable member locations of the example way under
`exampleWayLocs`. -/
def exampleWayResolved : List GeoLocation :=
  List.filterMap (fun v => exampleWayLocs.lookup v) [7]

/-! ## Theorems -/

/-- Claim C1, as stated, is false on the code: for a Car agent on an allowed
fast category the stored distance is divided by a speed multiplier larger
than 1, so the edge cost drops below the Euclidean distance between the
edge's endpoint locations.  Concretely, in the graph holding one two-way
Motorway connection from `(0,0)` to `(1,0)` (stored distance `1`), the cost
of that edge for `Car` is `1/24 < 1`. -/
theorem c1_counterexample :
    ∃ e ∈ motorwayExampleGraph.edges,
      get_shortest_path_edge_cost (e.2.2.1, e.2.2.2) AgentType.Car
        < vec2Dist (motorwayExampleGraph.vertices.getD e.1 (0, 0))
            (motorwayExampleGraph.vertices.getD e.2.1 (0, 0)) := by
  have hedges : motorwayExampleGraph.edges
      = [(0, 1, vec2Dist (0, 0) (1, 0), RoadType.Motorway),
         (1, 0, vec2Dist (0, 0) (1, 0), RoadType.Motorway)] := rfl
  refine ⟨(0, 1, vec2Dist (0, 0) (1, 0), RoadType.Motorway), ?_, ?_⟩
  · rw [hedges]
    simp
  · show get_shortest_path_edge_cost (vec2Dist (0, 0) (1, 0), RoadType.Motorway)
        AgentType.Car
      < vec2Dist (motorwayExampleGraph.vertices.getD 0 (0, 0))
          (motorwayExampleGraph.vertices.getD 1 (0, 0))
    have hv0 : motorwayExampleGraph.vertices.getD 0 (0, 0) = ((0 : ℝ), (0 : ℝ)) := rfl
    have hv1 : motorwayExampleGraph.vertices.getD 1 (0, 0) = ((1 : ℝ), (0 : ℝ)) := rfl
    have hd : vec2Dist ((0 : ℝ), (0 : ℝ)) ((1 : ℝ), (0 : ℝ)) = 1 := by
      show Real.sqrt (((0 : ℝ) - 1) ^ 2 + ((0 : ℝ) - 0) ^ 2) = 1
      rw [show ((0 : ℝ) - 1) ^ 2 + ((0 : ℝ) - 0) ^ 2 = 1 by norm_num, Real.sqrt_one]
    rw [hv0, hv1, hd]
    show (1 : ℝ) / (24 * REFERENCE_SPEED) < 1
    rw [REFERENCE_SPEED, GLOBAL_SCALE_FACTOR]
    norm_num

/-- Claim C1 amended: the edge cost of `get_shortest_path` is bounded below
by the stored Euclidean distance for the Pedestrian class on every category,
but for the Car class only by the distance divided by 24 (the largest speed
multiplier); the straight-line heuristic is therefore admissible for
Pedestrian agents only. -/
theorem c1_amended (d : ℝ) (hd : 0 ≤ d) (road_type : RoadType) :
    d ≤ get_shortest_path_edge_cost (d, road_type) AgentType.Pedestrian ∧
      d / 24 ≤ get_shortest_path_edge_cost (d, road_type) AgentType.Car := by
  constructor
  · cases road_type <;>
      · simp only [get_shortest_path_edge_cost, road_type_allowed_for_agent_type,
          agent_speed_on_road_type, REFERENCE_SPEED, GLOBAL_SCALE_FACTOR,
          COST_MULTIPLIER_DISALLOWED]
        norm_num
        try linarith
  · cases road_type <;>
      · simp only [get_shortest_path_edge_cost, road_type_allowed_for_agent_type,
          agent_speed_on_road_type, REFERENCE_SPEED, GLOBAL_SCALE_FACTOR,
          COST_MULTIPLIER_DISALLOWED]
        norm_num
        try linarith

/-- Witness for the amended claim C1 at the concrete distance `1` on a
Motorway edge. -/
theorem c1_amended_witness :
    (0 : ℝ) ≤ 1 ∧
      (1 ≤ get_shortest_path_edge_cost (1, RoadType.Motorway) AgentType.Pedestrian ∧
        1 / 24 ≤ get_shortest_path_edge_cost (1, RoadType.Motorway) AgentType.Car) :=
  ⟨by norm_num, c1_amended 1 (by norm_num) RoadType.Motorway⟩

/-- Lemma: `simplifyLoop` returns the polygon unchanged as soon as at most 4 points
remain. -/
theorem simplifyLoop_at_most_four (fuel : ℕ) (polygon : List QVec2)
    (areas : List ℚ) (threshold : ℚ) (h : ¬polygon.length > 4) :
    simplifyLoop fuel polygon areas threshold = polygon := by
  cases fuel <;> simp [simplifyLoop, h]

/-- Lemma: `simplifyLoop` never drops the point count below 4. -/
theorem simplifyLoop_length_ge (fuel : ℕ) :
    ∀ (polygon : List QVec2) (areas : List ℚ) (threshold : ℚ),
      4 ≤ polygon.length → 4 ≤ (simplifyLoop fuel polygon areas threshold).length := by
  induction fuel with
  | zero =>
    intro p a t h
    simpa [simplifyLoop] using h
  | succ n ih =>
    intro p a t h
    rw [simplifyLoop]
    by_cases hl : p.length > 4
    · simp only [hl, if_true]
      by_cases hm : (findMinArea a).1 > t
      · simpa [hm] using h
      · simp only [hm, if_false]
        apply ih
        rw [List.length_eraseIdx p (findMinArea a).2]
        split <;> omega
    · simpa [hl] using h

/-- The precomputed triangle areas of the 5-point square: the colinear
midpoint at index 1 spans area `0`, the corners span `1`, `1`, `2`, `2`. -/
theorem square_areas_eval :
    (List.range 5).map (fun i => calculate_triangle_area_at_pos squareWithMidpoint i)
      = [1, 0, 1, 2, 2] := by
  have hr : List.range 5 = [0, 1, 2, 3, 4] := rfl
  rw [hr]
  norm_num [calculate_triangle_area_at_pos, triangle_area, squareWithMidpoint,
    List.getD, List.get?]

/-- The smallest area of the 5-point square's area list is `0`, first
attained at index 1 (the midpoint). -/
theorem square_min_area_eval : findMinArea [1, 0, 1, 2, 2] = (0, 1) := by
  norm_num [findMinArea, minAreaScan]

/-- Simplifying the 5-point square removes exactly the zero-area midpoint
whenever the threshold is nonnegative: one loop iteration removes index 1,
then 4 points remain and the loop stops. -/
theorem simplify_square_eq (threshold : ℚ) (h : 0 ≤ threshold) :
    simplify_polygon squareWithMidpoint threshold = squareCorners := by
  rw [simplify_polygon, if_neg (by norm_num [squareWithMidpoint])]
  rw [show squareWithMidpoint.length = 5 from rfl, square_areas_eval]
  rw [show (5 : ℕ) = 4 + 1 from rfl, simplifyLoop]
  rw [if_pos (by norm_num [squareWithMidpoint])]
  simp only [square_min_area_eval]
  rw [if_neg (by exact not_lt.mpr h)]
  rw [show squareWithMidpoint.eraseIdx 1 = squareCorners from rfl]
  exact simplifyLoop_at_most_four 4 squareCorners _ threshold
    (by norm_num [squareCorners])

/-- Claim C2, as stated, is false on the code in its second half: with
threshold `0` the colinear midpoint's triangle area is exactly `0`, the stop
test `min_area > threshold` fails (`0 > 0` is false), and the midpoint is
removed — the 5-point input is not returned unchanged. -/
theorem c2_counterexample :
    simplify_polygon squareWithMidpoint 0 ≠ squareWithMidpoint := by
  rw [simplify_square_eq 0 le_rfl]
  decide

/-- Claim C2 amended: the 5-point square with a colinear midpoint reduces to
exactly the 4 corner points under a generous threshold (larger than every
corner-triangle area), and it reduces to the same 4 corners under threshold
`0` as well, because the zero-area midpoint is removed whenever the minimum
area does not strictly exceed the threshold. -/
theorem c2_amended :
    simplify_polygon squareWithMidpoint 10 = squareCorners ∧
      simplify_polygon squareWithMidpoint 0 = squareCorners :=
  ⟨simplify_square_eq 10 (by norm_num), simplify_square_eq 0 le_rfl⟩

/-- Claim C9: `simplify_polygon` preserves a floor of 4 points — inputs with
fewer than 4 points are returned unchanged immediately, inputs with at least
4 points keep at least 4 points, and an input of exactly 4 points is
returned unchanged. -/
theorem c9 (polygon : List QVec2) (threshold : ℚ) :
    (polygon.length < 4 → simplify_polygon polygon threshold = polygon) ∧
      (4 ≤ polygon.length → 4 ≤ (simplify_polygon polygon threshold).length) ∧
      (polygon.length = 4 → simplify_polygon polygon threshold = polygon) := by
  refine ⟨?_, ?_, ?_⟩
  · intro h
    simp [simplify_polygon, h]
  · intro h
    rw [simplify_polygon, if_neg (by omega)]
    exact simplifyLoop_length_ge _ _ _ _ h
  · intro h
    rw [simplify_polygon, if_neg (by omega)]
    exact simplifyLoop_at_most_four _ _ _ _ (by omega)

/-- Witness for claim C9 on a concrete triangle and a concrete square. -/
theorem c9_witness :
    (([((0 : ℚ), (0 : ℚ)), (1, 0), (0, 1)] : List QVec2).length < 4 ∧
        simplify_polygon [((0 : ℚ), (0 : ℚ)), (1, 0), (0, 1)] 5
          = [((0 : ℚ), (0 : ℚ)), (1, 0), (0, 1)]) ∧
      (4 ≤ (simplify_polygon [((0 : ℚ), (0 : ℚ)), (1, 0), (1, 1), (0, 1)] 5).length) ∧
      simplify_polygon [((0 : ℚ), (0 : ℚ)), (1, 0), (1, 1), (0, 1)] 5
        = [((0 : ℚ), (0 : ℚ)), (1, 0), (1, 1), (0, 1)] :=
  ⟨⟨by decide, (c9 [((0 : ℚ), (0 : ℚ)), (1, 0), (0, 1)] 5).1 (by decide)⟩,
    (c9 [((0 : ℚ), (0 : ℚ)), (1, 0), (1, 1), (0, 1)] 5).2.1 (by decide),
    (c9 [((0 : ℚ), (0 : ℚ)), (1, 0), (1, 1), (0, 1)] 5).2.2 (by decide)⟩

/-- A successful association-list lookup exhibits a member. -/
theorem lookup_mem {β : Type} {l : List (ℕ × β)} {a : ℕ} {b : β}
    (h : l.lookup a = some b) : (a, b) ∈ l := by
  induction l with
  | nil => simp [List.lookup] at h
  | cons hd tl ih =>
    rw [List.lookup] at h
    by_cases hab : a == hd.1
    · simp [hab] at h
      have ha : a = hd.1 := by simpa using hab
      cases hd
      simp_all
    · simp [hab] at h
      exact List.mem_cons_of_mem _ (ih h)

/-- A failed association-list lookup means the key is absent. -/
theorem lookup_none_not_key {β : Type} {l : List (ℕ × β)} {a : ℕ}
    (h : l.lookup a = none) : a ∉ l.map Prod.fst := by
  induction l with
  | nil => simp
  | cons hd tl ih =>
    rw [List.lookup] at h
    by_cases hab : a == hd.1
    · rw [hab] at h
      exact absurd h (by simp)
    · rw [Bool.not_eq_true] at hab
      rw [hab] at h
      have ha : ¬a = hd.1 := by simpa using hab
      simp only [List.map_cons, List.mem_cons]
      push_neg
      exact ⟨ha, ih h⟩

/-- Lemma: `add_node` never touches the edge list. -/
theorem edges_add_node (g : TrafficGraph) (i : ℕ) (loc : Vec2) :
    (g.add_node i loc).1.edges = g.edges := by
  unfold TrafficGraph.add_node
  cases h : g.idMap.lookup i <;> simp [h]

/-- Lemma: `add_node` preserves the id-map invariants. -/
theorem wf_add_node (g : TrafficGraph) (hg : g.WF) (i : ℕ) (loc : Vec2) :
    (g.add_node i loc).1.WF := by
  unfold TrafficGraph.add_node
  cases h : g.idMap.lookup i with
  | some index => simpa using hg
  | none =>
    obtain ⟨hlt, hsnd, hfst⟩ := hg
    refine ⟨?_, ?_, ?_⟩
    · intro p hp
      simp only [List.mem_append, List.mem_singleton] at hp
      simp only [List.length_append, List.length_singleton]
      rcases hp with hp | hp
      · exact Nat.lt_succ_of_lt (hlt p hp)
      · rw [hp]
        exact Nat.lt_succ_self _
    · simp only [List.map_append, List.map_cons, List.map_nil]
      rw [List.nodup_append]
      refine ⟨hsnd, List.nodup_singleton _, ?_⟩
      intro v hv hv'
      simp only [List.mem_singleton] at hv'
      obtain ⟨p, hp, hpv⟩ := List.mem_map.mp hv
      have := hlt p hp
      omega
    · simp only [List.map_append, List.map_cons, List.map_nil]
      rw [List.nodup_append]
      refine ⟨hfst, List.nodup_singleton _, ?_⟩
      intro v hv hv'
      simp only [List.mem_singleton] at hv'
      subst hv'
      exact lookup_none_not_key h hv

/-- Lemma: `add_connection` preserves the id-map invariants (it is two `add_node`
calls plus an edge append, and the invariants do not mention edges). -/
theorem wf_add_connection (g : TrafficGraph) (hg : g.WF) (a : ℕ) (la : Vec2)
    (b : ℕ) (lb : Vec2) (ow : OneWay) (rt : RoadType) :
    (g.add_connection a la b lb ow rt).WF := by
  have h2 : ((g.add_node a la).1.add_node b lb).1.WF :=
    wf_add_node _ (wf_add_node _ hg a la) b lb
  unfold TrafficGraph.add_connection
  cases ow <;> exact h2

/-- Every graph state reachable through the mutating API satisfies the
id-map invariants. -/
theorem reachable_wf {g : TrafficGraph} (hg : ReachableGraph g) : g.WF := by
  induction hg with
  | base => exact ⟨by simp [TrafficGraph.default], by simp [TrafficGraph.default],
      by simp [TrafficGraph.default]⟩
  | add_node g i loc _ ih => exact wf_add_node g ih i loc
  | add_connection g a la b lb ow rt _ ih => exact wf_add_connection g ih a la b lb ow rt
  | reset g _ => exact ⟨by simp [TrafficGraph.reset, TrafficGraph.default],
      by simp [TrafficGraph.reset, TrafficGraph.default],
      by simp [TrafficGraph.reset, TrafficGraph.default]⟩

/-- Claim C7: on every reachable graph state, `add_node` with a known
external id returns the originally assigned handle and leaves the whole
graph (vertices and id map included) unchanged regardless of the location
argument; `add_node` with a fresh id appends exactly one vertex and one
id-map entry; and the id map is injective — distinct external ids resolve to
distinct vertex handles. -/
theorem c7 (g : TrafficGraph) (hg : ReachableGraph g) :
    (∀ osm_id index location, g.idMap.lookup osm_id = some index →
        g.add_node osm_id location = (g, index)) ∧
      (∀ osm_id location, g.idMap.lookup osm_id = none →
          (g.add_node osm_id location).1.vertices.length = g.vertices.length + 1 ∧
            (g.add_node osm_id location).1.idMap
              = g.idMap ++ [(osm_id, g.vertices.length)]) ∧
      (∀ a b ia ib, g.idMap.lookup a = some ia → g.idMap.lookup b = some ib →
          a ≠ b → ia ≠ ib) := by
  refine ⟨?_, ?_, ?_⟩
  · intro osm_id index location h
    unfold TrafficGraph.add_node
    rw [h]
  · intro osm_id location h
    unfold TrafficGraph.add_node
    rw [h]
    simp
  · intro a b ia ib ha hb hab hvals
    have hwf := reachable_wf hg
    have hpair : (a, ia) = (b, ib) :=
      List.inj_on_of_nodup_map hwf.2.1 (lookup_mem ha) (lookup_mem hb)
        (by simpa using hvals)
    exact hab (congrArg Prod.fst hpair)

/-- Witness for claim C7 on a concrete reachable two-vertex graph. -/
theorem c7_witness :
    exampleReachableGraph.add_node 5 (2, 2) = (exampleReachableGraph, 0) ∧
      (exampleReachableGraph.add_node 9 (3, 3)).1.vertices.length
        = exampleReachableGraph.vertices.length + 1 ∧
      (0 : ℕ) ≠ 1 := by
  have hreach : ReachableGraph exampleReachableGraph :=
    ReachableGraph.add_node _ 7 (1, 1)
      (ReachableGraph.add_node _ 5 (0, 0) ReachableGraph.base)
  exact ⟨(c7 _ hreach).1 5 0 (2, 2) rfl,
    ((c7 _ hreach).2.1 9 (3, 3) rfl).1,
    (c7 _ hreach).2.2 5 7 0 1 rfl rfl (by decide)⟩

/-- Claim C8: `add_connection` with two-way direction appends exactly the
two directed edges `A→B` and `B→A`, both carrying the Euclidean distance of
the endpoint locations and the given category, and leaves all previously
stored edges in place (so repeated calls accumulate duplicates). -/
theorem c8 (g : TrafficGraph) (a : ℕ) (la : Vec2) (b : ℕ) (lb : Vec2)
    (rt : RoadType) :
    (g.add_connection a la b lb OneWay.No rt).edges
      = g.edges
        ++ [((g.add_node a la).2, ((g.add_node a la).1.add_node b lb).2,
              vec2Dist la lb, rt),
            (((g.add_node a la).1.add_node b lb).2, (g.add_node a la).2,
              vec2Dist la lb, rt)] ∧
      (g.add_connection a la b lb OneWay.No rt).edges.length
        = g.edges.length + 2 := by
  have h : (g.add_connection a la b lb OneWay.No rt).edges
      = ((g.add_node a la).1.add_node b lb).1.edges
        ++ [((g.add_node a la).2, ((g.add_node a la).1.add_node b lb).2,
              vec2Dist la lb, rt),
            (((g.add_node a la).1.add_node b lb).2, (g.add_node a la).2,
              vec2Dist la lb, rt)] := rfl
  rw [h, edges_add_node, edges_add_node]
  exact ⟨rfl, by simp⟩

/-- The trace of `add_connection` calls made while walking one road's node
list: with an empty cursor it is the consecutive pairs of the resolvable
subsequence, and with cursor `a` it is the consecutive pairs of `a` followed
by the resolvable subsequence. -/
theorem walk_trace (node_locations : List (ℕ × GeoLocation)) (offset : Offset)
    (oneway : OneWay) (road_type : RoadType) :
    ∀ (nodes : List ℕ) (g : TrafficGraph),
      ((update_traffic_graph_walk node_locations offset oneway road_type g
            none nodes).2
          = adjacentPairs
              (nodes.filter (fun id => (node_locations.lookup id).isSome))) ∧
        ∀ (a : ℕ) (la : Vec2),
          (update_traffic_graph_walk node_locations offset oneway road_type g
              (some (a, la)) nodes).2
            = adjacentPairs
                (a :: nodes.filter (fun id => (node_locations.lookup id).isSome)) := by
  intro nodes
  induction nodes with
  | nil =>
    intro g
    constructor
    · simp [update_traffic_graph_walk, adjacentPairs]
    · intro a la
      simp [update_traffic_graph_walk, adjacentPairs]
  | cons n rest ih =>
    intro g
    cases hn : node_locations.lookup n with
    | none =>
      have hfilter : (n :: rest).filter (fun id => (node_locations.lookup id).isSome)
          = rest.filter (fun id => (node_locations.lookup id).isSome) := by
        simp [List.filter_cons, hn]
      constructor
      · simp only [update_traffic_graph_walk, hn, hfilter]
        exact (ih g).1
      · intro a la
        simp only [update_traffic_graph_walk, hn, hfilter]
        exact (ih g).2 a la
    | some geolocation =>
      have hfilter : (n :: rest).filter (fun id => (node_locations.lookup id).isSome)
          = n :: rest.filter (fun id => (node_locations.lookup id).isSome) := by
        simp [List.filter_cons, hn]
      constructor
      · simp only [update_traffic_graph_walk, hn, hfilter]
        exact (ih _).2 n _
      · intro a la
        have hstep : (update_traffic_graph_walk node_locations offset oneway road_type g
            (some (a, la)) (n :: rest)).2
            = (a, n) :: (update_traffic_graph_walk node_locations offset oneway road_type
                (((g.add_node n (geolocation.project offset)).1).add_connection a la n
                  (geolocation.project offset) oneway road_type)
                (some (n, geolocation.project offset)) rest).2 := by
          simp only [update_traffic_graph_walk, hn]
        rw [hstep, hfilter, (ih _).2 n (geolocation.project offset)]
        rfl

/-- Claim C4: walking a road feature's node-id list adds exactly one
connection per consecutive pair of the resolvable subsequence (so each
maximal run of unresolvable ids between two resolvable ids is bridged by
exactly one connection from the nearest resolvable predecessor to the
nearest resolvable successor, and unresolvable ids are skipped without
terminating the walk), and every connection endpoint resolves to a known
location. -/
theorem c4 (node_locations : List (ℕ × GeoLocation)) (offset : Offset)
    (oneway : OneWay) (road_type : RoadType) (g : TrafficGraph)
    (nodes : List ℕ) :
    (update_traffic_graph_walk node_locations offset oneway road_type g
          none nodes).2
        = adjacentPairs
            (nodes.filter (fun id => (node_locations.lookup id).isSome)) ∧
      ∀ p ∈ (update_traffic_graph_walk node_locations offset oneway road_type g
          none nodes).2,
        (node_locations.lookup p.1).isSome = true ∧
          (node_locations.lookup p.2).isSome = true := by
  have htrace := (walk_trace node_locations offset oneway road_type nodes g).1
  refine ⟨htrace, ?_⟩
  intro p hp
  rw [htrace] at hp
  obtain ⟨p1, p2⟩ := p
  have hzip := List.of_mem_zip hp
  constructor
  · simpa using List.of_mem_filter hzip.1
  · simpa using List.of_mem_filter (List.mem_of_mem_tail hzip.2)

/-- Witness for claim C4: walking `[1, 2, 3]` where only `1` and `3` resolve
adds the single connection `(1, 3)`, whose endpoints both resolve. -/
theorem c4_witness :
    (List.lookup 1 [(1, ({ longitude := 0, latitude := 0 } : GeoLocation)),
        (3, { longitude := 1, latitude := 1 })]).isSome = true ∧
      (List.lookup 3 [(1, ({ longitude := 0, latitude := 0 } : GeoLocation)),
          (3, { longitude := 1, latitude := 1 })]).isSome = true := by
  have h := (c4 [(1, { longitude := 0, latitude := 0 }),
      (3, { longitude := 1, latitude := 1 })] { x := 0, y := 0 } OneWay.No
      RoadType.Residential TrafficGraph.default [1, 2, 3]).2 (1, 3)
  apply h
  show (1, 3) ∈ (update_traffic_graph_walk _ _ _ _ _ _ _).2
  have ht : (update_traffic_graph_walk
      [(1, { longitude := 0, latitude := 0 }), (3, { longitude := 1, latitude := 1 })]
      { x := 0, y := 0 } OneWay.No RoadType.Residential TrafficGraph.default
      none [1, 2, 3]).2 = [(1, 3)] := rfl
  rw [ht]
  exact List.mem_singleton.mpr rfl

/-- The recentring distance from any finite candidate to the sentinel
default offset is `+∞` (IEEE: `finite - (-∞) = +∞`, `∞² = ∞`, `∞ + ∞ = ∞`,
`sqrt ∞ = ∞`). -/
theorem offset_distance_to_default (x y : ℝ) :
    offset_distance { x := (x : EReal), y := (y : EReal) } Offset.default = ⊤ := by
  unfold offset_distance Offset.default
  show erealSqrt (((x : EReal) - ⊥) ^ 2 + ((y : EReal) - ⊥) ^ 2) = ⊤
  rw [EReal.coe_sub_bot, EReal.coe_sub_bot]
  rw [show ((⊤ : EReal)) ^ 2 = ⊤ by rw [pow_two]; exact EReal.top_mul_top]
  rw [EReal.top_add_top]
  unfold erealSqrt
  simp

/-- The recentring distance from a finite candidate to itself is `0`. -/
theorem offset_distance_self_coe (x y : ℝ) :
    offset_distance { x := (x : EReal), y := (y : EReal) }
      { x := (x : EReal), y := (y : EReal) } = 0 := by
  unfold offset_distance
  show erealSqrt (((x : EReal) - (x : EReal)) ^ 2 + ((y : EReal) - (y : EReal)) ^ 2) = 0
  rw [← EReal.coe_sub, ← EReal.coe_sub, sub_self, sub_self]
  rw [show ((0 : ℝ) : EReal) = (0 : EReal) from rfl]
  rw [show ((0 : EReal)) ^ 2 = 0 by rw [pow_two]; exact mul_zero 0]
  rw [add_zero]
  unfold erealSqrt
  rw [if_neg (by simp)]
  rw [EReal.toReal_zero, Real.sqrt_zero]
  rfl

/-- The candidate offset is the coercion of the two (finite) unscaled
projection coordinates of the median node location. -/
theorem offset_candidate_coe (data : GeoData) :
    offset_candidate data
      = { x := ((find_bounds_median data).project_no_scale.1 : EReal),
          y := ((find_bounds_median data).project_no_scale.2 : EReal) } := rfl

/-- The relation `Grows` is reflexive. -/
theorem grows_refl (g : TrafficGraph) : g.Grows g :=
  ⟨⟨[], by simp⟩, ⟨[], by simp⟩⟩

/-- The relation `Grows` is transitive. -/
theorem grows_trans {g h k : TrafficGraph} (h1 : g.Grows h) (h2 : h.Grows k) :
    g.Grows k := by
  obtain ⟨⟨vs1, hv1⟩, ⟨es1, he1⟩⟩ := h1
  obtain ⟨⟨vs2, hv2⟩, ⟨es2, he2⟩⟩ := h2
  exact ⟨⟨vs1 ++ vs2, by rw [hv2, hv1, List.append_assoc]⟩,
    ⟨es1 ++ es2, by rw [he2, he1, List.append_assoc]⟩⟩

/-- Lemma: `add_node` only appends. -/
theorem grows_add_node (g : TrafficGraph) (i : ℕ) (loc : Vec2) :
    g.Grows (g.add_node i loc).1 := by
  unfold TrafficGraph.add_node
  cases h : g.idMap.lookup i with
  | some index => simpa [h] using grows_refl g
  | none => exact ⟨⟨[loc], rfl⟩, ⟨[], by simp⟩⟩

/-- Lemma: `add_connection` only appends. -/
theorem grows_add_connection (g : TrafficGraph) (a : ℕ) (la : Vec2) (b : ℕ)
    (lb : Vec2) (ow : OneWay) (rt : RoadType) :
    g.Grows (g.add_connection a la b lb ow rt) := by
  have h2 : g.Grows ((g.add_node a la).1.add_node b lb).1 :=
    grows_trans (grows_add_node g a la) (grows_add_node (g.add_node a la).1 b lb)
  obtain ⟨⟨vs, hv⟩, ⟨es, he⟩⟩ := h2
  unfold TrafficGraph.add_connection
  cases ow <;> exact ⟨⟨vs, hv⟩, ⟨es ++ _, by rw [← List.append_assoc, ← he]⟩⟩

/-- The per-road walk only appends. -/
theorem grows_walk (node_locations : List (ℕ × GeoLocation)) (offset : Offset)
    (oneway : OneWay) (road_type : RoadType) :
    ∀ (nodes : List ℕ) (g : TrafficGraph) (cursor : Option (ℕ × Vec2)),
      g.Grows (update_traffic_graph_walk node_locations offset oneway road_type g
        cursor nodes).1 := by
  intro nodes
  induction nodes with
  | nil =>
    intro g cursor
    simpa [update_traffic_graph_walk] using grows_refl g
  | cons n rest ih =>
    intro g cursor
    cases hn : node_locations.lookup n with
    | none =>
      simp only [update_traffic_graph_walk, hn]
      exact ih g cursor
    | some geolocation =>
      cases cursor with
      | none =>
        simp only [update_traffic_graph_walk, hn]
        exact grows_trans (grows_add_node g n (geolocation.project offset)) (ih _ _)
      | some last =>
        obtain ⟨last_node, last_location⟩ := last
        simp only [update_traffic_graph_walk, hn]
        exact grows_trans (grows_add_node g n (geolocation.project offset))
          (grows_trans (grows_add_connection _ last_node last_location n
            (geolocation.project offset) oneway road_type) (ih _ _))

/-- Lemma: `update_traffic_graph` only appends. -/
theorem grows_update_traffic_graph (node_locations : List (ℕ × GeoLocation))
    (offset : Offset) :
    ∀ (road_features : List (ℕ × RoadFeature)) (g : TrafficGraph),
      g.Grows (update_traffic_graph node_locations road_features g offset) := by
  intro road_features
  induction road_features with
  | nil =>
    intro g
    simpa [update_traffic_graph] using grows_refl g
  | cons road rest ih =>
    intro g
    simp only [update_traffic_graph, List.foldl_cons]
    exact grows_trans
      (by unfold update_traffic_graph_road; exact grows_walk _ _ _ _ _ _ _)
      (ih _)

/-- The whole per-chunk rebuild only appends. -/
theorem grows_rebuild (offset : Offset) :
    ∀ (chunks : List (ChunkIndex × Chunk))
      (node_locations : List (ℕ × GeoLocation)) (g : TrafficGraph),
      g.Grows ((chunks.foldl
        (fun gacc chunk =>
          update_traffic_graph node_locations chunk.2.road_features gacc offset) g)) := by
  intro chunks
  induction chunks with
  | nil =>
    intro locs g
    simpa using grows_refl g
  | cons c rest ih =>
    intro locs g
    simp only [List.foldl_cons]
    exact grows_trans (grows_update_traffic_graph locs offset c.2.road_features g) (ih _ _)

/-- Claim C10: the default `Offset` is the `(-∞, -∞)` sentinel; against it,
the recentring distance from every finite candidate evaluates to `+∞`, which
exceeds the fixed threshold — so the very first ingested batch always takes
the recentring path: the graph is reset and the candidate is installed. -/
theorem c10 :
    Offset.default = { x := ⊥, y := ⊥ } ∧
      (∀ x y : ℝ,
        offset_distance { x := (x : EReal), y := (y : EReal) } Offset.default = ⊤ ∧
          offset_distance { x := (x : EReal), y := (y : EReal) } Offset.default
            > (MAX_DISTANCE : EReal)) ∧
      ∀ (g : TrafficGraph) (data : GeoData),
        update_earth_step Offset.default g data
          = (offset_candidate data,
              rebuild_graph data (offset_candidate data) g.reset) := by
  refine ⟨rfl, fun x y => ⟨offset_distance_to_default x y, ?_⟩, ?_⟩
  · rw [offset_distance_to_default]
    exact EReal.coe_lt_top _
  · intro g data
    have hcond : offset_distance (offset_candidate data) Offset.default
        > (MAX_DISTANCE : EReal) := by
      rw [offset_candidate_coe, offset_distance_to_default]
      exact EReal.coe_lt_top _
    simp only [update_earth_step]
    rw [if_pos hcond]

/-- Claim C3: when a batch's candidate offset is farther than the fixed
threshold from the active offset, the traffic graph is reset (vertex count 0
before the rebuild) and the offset is replaced by the candidate; when it is
not, the offset is kept and the existing graph state is kept and only added
to by the rebuild. -/
theorem c3 (offset : Offset) (g : TrafficGraph) (data : GeoData) :
    (offset_distance (offset_candidate data) offset > (MAX_DISTANCE : EReal) →
        update_earth_step offset g data
          = (offset_candidate data,
              rebuild_graph data (offset_candidate data) g.reset) ∧
          (g.reset).get_size = 0) ∧
      (¬offset_distance (offset_candidate data) offset > (MAX_DISTANCE : EReal) →
        update_earth_step offset g data = (offset, rebuild_graph data offset g) ∧
          g.Grows (rebuild_graph data offset g)) := by
  constructor
  · intro h
    refine ⟨?_, rfl⟩
    simp only [update_earth_step]
    rw [if_pos h]
  · intro h
    refine ⟨?_, ?_⟩
    · simp only [update_earth_step]
      rw [if_neg h]
    · unfold rebuild_graph
      exact grows_rebuild offset data.chunks data.node_locations g

/-- Witness for claim C3: the one-node batch triggers recentring against the
default offset and does not trigger it against its own candidate offset. -/
theorem c3_witness :
    (update_earth_step Offset.default TrafficGraph.default exampleBatch
        = (offset_candidate exampleBatch,
            rebuild_graph exampleBatch (offset_candidate exampleBatch)
              TrafficGraph.default.reset) ∧
        (TrafficGraph.default.reset).get_size = 0) ∧
      (update_earth_step (offset_candidate exampleBatch) TrafficGraph.default
            exampleBatch
          = (offset_candidate exampleBatch,
              rebuild_graph exampleBatch (offset_candidate exampleBatch)
                TrafficGraph.default) ∧
        TrafficGraph.default.Grows
          (rebuild_graph exampleBatch (offset_candidate exampleBatch)
            TrafficGraph.default)) := by
  constructor
  · exact (c3 Offset.default TrafficGraph.default exampleBatch).1
      (by rw [offset_candidate_coe, offset_distance_to_default]
          exact EReal.coe_lt_top _)
  · refine (c3 (offset_candidate exampleBatch) TrafficGraph.default exampleBatch).2 ?_
    rw [offset_candidate_coe, offset_distance_self_coe]
    rw [not_lt]
    rw [show ((0 : EReal)) = ((0 : ℝ) : EReal) from rfl]
    rw [EReal.coe_le_coe_iff]
    norm_num [MAX_DISTANCE]

/-- Lemma: `get_element_type` either succeeds or fails with a data-syntax error. -/
theorem get_element_type_shape (o : List (String × Json)) :
    (∃ s, get_element_type o = Except.ok s) ∨
      ∃ m, get_element_type o = Except.error (geoError m) := by
  unfold get_element_type
  rcases h : jsonGet o "type" with _ | j
  · exact Or.inr ⟨_, rfl⟩
  · cases j
    case str s => exact Or.inl ⟨_, rfl⟩
    all_goals exact Or.inr ⟨_, rfl⟩

/-- Lemma: `get_id` either succeeds or fails with a data-syntax error. -/
theorem get_id_shape (o : List (String × Json)) :
    (∃ n, get_id o = Except.ok n) ∨
      ∃ m, get_id o = Except.error (geoError m) := by
  unfold get_id
  rcases h : jsonGet o "id" with _ | j
  · exact Or.inr ⟨_, rfl⟩
  · cases j
    case num q =>
      by_cases hq : numIsU64 q
      · refine Or.inl ⟨q.num.toNat, ?_⟩
        show (if numIsU64 q then Except.ok q.num.toNat
            else Except.error
              (geoError "an element must have an `id` tag that is a nonnegative integer"))
          = Except.ok q.num.toNat
        rw [if_pos hq]
      · refine Or.inr
          ⟨"an element must have an `id` tag that is a nonnegative integer", ?_⟩
        show (if numIsU64 q then Except.ok q.num.toNat
            else Except.error
              (geoError "an element must have an `id` tag that is a nonnegative integer"))
          = Except.error (geoError "an element must have an `id` tag that is a nonnegative integer")
        rw [if_neg hq]
    all_goals exact Or.inr ⟨_, rfl⟩

/-- The tag-collecting loop either succeeds or fails with a data-syntax
error. -/
theorem getTagsList_shape :
    ∀ (fields : List (String × Json)),
      (∃ t, getTagsList fields = Except.ok t) ∨
        ∃ m, getTagsList fields = Except.error (geoError m) := by
  intro fields
  induction fields with
  | nil => exact Or.inl ⟨_, rfl⟩
  | cons hd tl ih =>
    obtain ⟨key, val⟩ := hd
    cases val
    case str s =>
      rcases ih with ⟨t, ht⟩ | ⟨m, hm⟩
      · exact Or.inl ⟨(key, s) :: t, by simp only [getTagsList, ht]⟩
      · exact Or.inr ⟨m, by simp only [getTagsList, hm]⟩
    all_goals exact Or.inr ⟨_, rfl⟩

/-- Lemma: `get_tags` either succeeds or fails with a data-syntax error. -/
theorem get_tags_shape (o : List (String × Json)) :
    (∃ t, get_tags o = Except.ok t) ∨
      ∃ m, get_tags o = Except.error (geoError m) := by
  unfold get_tags
  rcases h : jsonGet o "tags" with _ | j
  · exact Or.inl ⟨_, rfl⟩
  · cases j
    case obj fields => exact getTagsList_shape fields
    all_goals exact Or.inr ⟨_, rfl⟩

/-- Every error of the second pass of `convert_osm_json` is a data-syntax
error (every element is either processed or rejected with `geoError`). -/
theorem pass2Step_shape (locs : List (ℕ × GeoLocation))
    (chunks : List (ChunkIndex × Chunk)) (el : Json) :
    (∃ c, pass2Step locs chunks el = Except.ok c) ∨
      ∃ m, pass2Step locs chunks el = Except.error (geoError m) := by
  cases el
  case obj o =>
    rcases get_element_type_shape o with ⟨t, ht⟩ | ⟨m, hm⟩
    on_goal 2 => exact Or.inr ⟨m, by simp only [pass2Step, hm]⟩
    rcases get_id_shape o with ⟨n, hn⟩ | ⟨m, hm⟩
    on_goal 2 => exact Or.inr ⟨m, by simp only [pass2Step, ht, hm]⟩
    rcases get_tags_shape o with ⟨tags, htags⟩ | ⟨m, hm⟩
    on_goal 2 => exact Or.inr ⟨m, by simp only [pass2Step, ht, hn, hm]⟩
    simp only [pass2Step, ht, hn, htags]
    split
    · split
      · exact Or.inl ⟨_, rfl⟩
      · split
        · exact Or.inl ⟨_, rfl⟩
        · exact Or.inr ⟨_, rfl⟩
    · split
      · split
        · exact Or.inr ⟨_, rfl⟩
        · split
          · exact Or.inl ⟨_, rfl⟩
          · split
            · exact Or.inl ⟨_, rfl⟩
            · exact Or.inl ⟨_, rfl⟩
      · exact Or.inr ⟨_, rfl⟩
    · exact Or.inl ⟨_, rfl⟩
    · exact Or.inl ⟨_, rfl⟩
  all_goals exact Or.inr ⟨_, rfl⟩

/-- If some element of the list always makes the step function fail with a
data-syntax error, the whole error-propagating fold fails with a data-syntax
error (either at that element or at an earlier one). -/
theorem foldE_error_of_mem {σ α : Type} (f : σ → α → Except AppError σ) (x : α)
    (hshape : ∀ s y, (∃ s', f s y = Except.ok s') ∨
      ∃ m, f s y = Except.error (geoError m))
    (hx : ∀ s, ∃ m, f s x = Except.error (geoError m)) :
    ∀ (l1 l2 : List α) (s : σ),
      ∃ m, foldE f s (l1 ++ x :: l2) = Except.error (geoError m) := by
  intro l1
  induction l1 with
  | nil =>
    intro l2 s
    obtain ⟨m, hm⟩ := hx s
    refine ⟨m, ?_⟩
    rw [List.nil_append]
    show (match f s x with
        | Except.ok s' => foldE f s' l2
        | Except.error e => Except.error e) = Except.error (geoError m)
    rw [hm]
  | cons a l1' ih =>
    intro l2 s
    rcases hshape s a with ⟨s', hs'⟩ | ⟨m, hm⟩
    · obtain ⟨m, hm⟩ := ih l2 s'
      refine ⟨m, ?_⟩
      rw [List.cons_append]
      show (match f s a with
          | Except.ok s' => foldE f s' (l1' ++ x :: l2)
          | Except.error e => Except.error e) = Except.error (geoError m)
      rw [hs']
      exact hm
    · refine ⟨m, ?_⟩
      rw [List.cons_append]
      show (match f s a with
          | Except.ok s' => foldE f s' (l1' ++ x :: l2)
          | Except.error e => Except.error e) = Except.error (geoError m)
      rw [hm]

/-- The averaging fold of the "way" branch computes the sums and the count
over exactly the member ids that resolve, from any accumulator. -/
theorem sumLocs_general (locs : List (ℕ × GeoLocation)) :
    ∀ (ns : List ℕ) (acc : ℚ × ℚ × ℕ),
      ns.foldl
        (fun acc id =>
          match locs.lookup id with
          | some location =>
            (acc.1 + location.longitude, acc.2.1 + location.latitude, acc.2.2 + 1)
          | none => acc) acc
        = (acc.1 + ((ns.filterMap (fun id => locs.lookup id)).map
              GeoLocation.longitude).sum,
            acc.2.1 + ((ns.filterMap (fun id => locs.lookup id)).map
              GeoLocation.latitude).sum,
            acc.2.2 + (ns.filterMap (fun id => locs.lookup id)).length) := by
  intro ns
  induction ns with
  | nil =>
    intro acc
    simp
  | cons n rest ih =>
    intro acc
    cases hn : locs.lookup n with
    | none =>
      simp only [List.foldl_cons, List.filterMap_cons, hn]
      exact ih acc
    | some location =>
      simp only [List.foldl_cons, List.filterMap_cons, hn, List.map_cons,
        List.sum_cons, List.length_cons]
      rw [ih]
      simp only [Prod.mk.injEq]
      refine ⟨by ring, by ring, by omega⟩

/-- Lemma: `sumLocs` equals the longitude sum, latitude sum and count of the
resolvable member nodes. -/
theorem sumLocs_eq (locs : List (ℕ × GeoLocation)) (ns : List ℕ) :
    sumLocs locs ns
      = (((ns.filterMap (fun id => locs.lookup id)).map GeoLocation.longitude).sum,
          ((ns.filterMap (fun id => locs.lookup id)).map GeoLocation.latitude).sum,
          (ns.filterMap (fun id => locs.lookup id)).length) := by
  unfold sumLocs
  rw [sumLocs_general]
  simp

/-- Claim C5: in pass 2, a "node" element with at least one tag whose id has
no recorded location aborts the whole conversion with a data-syntax error;
in pass 1, a "node" element without a numeric `lon` (or `lat`) is skipped
without error and without recording anything; and a tagged node with a
recorded location is inserted into the chunk computed from its projected
location (with the parser's literal zero offset). -/
theorem c5 :
    (∀ (root : List (String × Json)) (elements pre post : List Json)
        (eo : List (String × Json)) (n : ℕ) (tags : Tags)
        (locs : List (ℕ × GeoLocation)),
        jsonGet root "elements" = some (Json.arr elements) →
        elements = pre ++ Json.obj eo :: post →
        get_element_type eo = Except.ok "node" →
        get_id eo = Except.ok n →
        get_tags eo = Except.ok tags →
        tags ≠ [] →
        foldE pass1Step [] elements = Except.ok locs →
        locs.lookup n = none →
        ∃ m, convert_osm_json (Json.obj root) = Except.error (geoError m)) ∧
      (∀ (locs : List (ℕ × GeoLocation)) (o : List (String × Json)) (n : ℕ),
        get_element_type o = Except.ok "node" →
        get_id o = Except.ok n →
        ((∀ q, jsonGet o "lon" ≠ some (Json.num q)) ∨
          (∀ q, jsonGet o "lat" ≠ some (Json.num q))) →
        pass1Step locs (Json.obj o) = Except.ok locs) ∧
      (∀ (locs : List (ℕ × GeoLocation)) (chunks : List (ChunkIndex × Chunk))
        (o : List (String × Json)) (n : ℕ) (tags : Tags) (location : GeoLocation),
        get_element_type o = Except.ok "node" →
        get_id o = Except.ok n →
        get_tags o = Except.ok tags →
        tags ≠ [] →
        locs.lookup n = some location →
        pass2Step locs chunks (Json.obj o)
          = Except.ok (chunksModify chunks
              (ChunkIndex.from_vec2 (location.project { x := 0, y := 0 }))
              (fun c => { c with nodes := alistInsert c.nodes n { tags := tags } }))) := by
  refine ⟨?_, ?_, ?_⟩
  · intro root elements pre post eo n tags locs helems hsplit ht hi htags hne hp1 hlook
    have hx : ∀ s, ∃ m, pass2Step locs s (Json.obj eo)
        = Except.error (geoError m) := by
      intro s
      refine ⟨"node has tags but no location", ?_⟩
      simp only [pass2Step, ht, hi, htags]
      show (if tags = [] then Except.ok s
          else
            match locs.lookup n with
            | some location =>
              Except.ok (chunksModify s
                (ChunkIndex.from_vec2 (location.project { x := 0, y := 0 }))
                (fun c => { c with nodes := alistInsert c.nodes n { tags := tags } }))
            | none => Except.error (geoError "node has tags but no location"))
          = Except.error (geoError "node has tags but no location")
      rw [if_neg hne, hlook]
    obtain ⟨m, hm⟩ := foldE_error_of_mem (pass2Step locs) (Json.obj eo)
      (fun s y => pass2Step_shape locs s y) hx pre post []
    subst hsplit
    exact ⟨m, by simp only [convert_osm_json, helems, hp1, hm]⟩
  · intro locs o n ht hi hcond
    simp only [pass1Step, ht, hi]
    try simp only [if_true]
    try rw [if_pos trivial]
    rcases hcond with hlon | hlat
    · rcases hl : jsonGet o "lon" with _ | j
      · rfl
      · cases j
        case num q => exact absurd hl (hlon q)
        all_goals rfl
    · rcases hl : jsonGet o "lon" with _ | j
      · rfl
      · cases j
        case num q =>
          rcases hl' : jsonGet o "lat" with _ | j'
          · rfl
          · cases j'
            case num q' => exact absurd hl' (hlat q')
            all_goals rfl
        all_goals rfl
  · intro locs chunks o n tags location ht hi htags hne hlook
    simp only [pass2Step, ht, hi, htags]
    show (if tags = [] then Except.ok chunks
        else
          match locs.lookup n with
          | some location =>
            Except.ok (chunksModify chunks
              (ChunkIndex.from_vec2 (location.project { x := 0, y := 0 }))
              (fun c => { c with nodes := alistInsert c.nodes n { tags := tags } }))
          | none => Except.error (geoError "node has tags but no location"))
        = Except.ok (chunksModify chunks
            (ChunkIndex.from_vec2 (location.project { x := 0, y := 0 }))
            (fun c => { c with nodes := alistInsert c.nodes n { tags := tags } }))
    rw [if_neg hne, hlook]

/-- Witness for claim C5 on concrete documents: a tagged node with no
coordinates anywhere aborts the conversion; a node without `lon` is skipped
by pass 1; a tagged node with a recorded location is inserted at its
projected chunk. -/
theorem c5_witness :
    (∃ m, convert_osm_json (Json.obj
        [("elements", Json.arr [Json.obj
          [("type", Json.str "node"), ("id", Json.num 1),
            ("tags", Json.obj [("building", Json.str "x")])]])])
        = Except.error (geoError m)) ∧
      pass1Step [] (Json.obj [("type", Json.str "node"), ("id", Json.num 2)])
        = Except.ok [] ∧
      pass2Step [(3, { longitude := 0, latitude := 0 })] []
          (Json.obj [("type", Json.str "node"), ("id", Json.num 3),
            ("tags", Json.obj [("building", Json.str "x")])])
        = Except.ok (chunksModify []
            (ChunkIndex.from_vec2
              (({ longitude := 0, latitude := 0 } : GeoLocation).project
                { x := 0, y := 0 }))
            (fun c => { c with
              nodes := alistInsert c.nodes 3 { tags := [("building", "x")] } })) := by
  refine ⟨?_, ?_, ?_⟩
  · exact c5.1
      [("elements", Json.arr [Json.obj
        [("type", Json.str "node"), ("id", Json.num 1),
          ("tags", Json.obj [("building", Json.str "x")])]])]
      [Json.obj [("type", Json.str "node"), ("id", Json.num 1),
        ("tags", Json.obj [("building", Json.str "x")])]]
      [] []
      [("type", Json.str "node"), ("id", Json.num 1),
        ("tags", Json.obj [("building", Json.str "x")])]
      1 [("building", "x")] []
      rfl rfl rfl rfl rfl (by simp) rfl rfl
  · refine c5.2.1 [] [("type", Json.str "node"), ("id", Json.num 2)] 2 rfl rfl
      (Or.inl ?_)
    intro q h
    rw [show jsonGet [("type", Json.str "node"), ("id", Json.num 2)] "lon" = none
      from rfl] at h
    exact Option.noConfusion h
  · exact c5.2.2 [(3, { longitude := 0, latitude := 0 })] []
      [("type", Json.str "node"), ("id", Json.num 3),
        ("tags", Json.obj [("building", Json.str "x")])]
      3 [("building", "x")] { longitude := 0, latitude := 0 }
      rfl rfl rfl (by simp) rfl

/-- Claim C6: a classified "way" whose member ids all fail to resolve is
silently discarded (no error, chunks unchanged); otherwise it is stored in
the chunk computed from the projection of the arithmetic mean of the
longitudes and latitudes of exactly the resolvable member nodes. -/
theorem c6 (locs : List (ℕ × GeoLocation)) (chunks : List (ChunkIndex × Chunk))
    (o : List (String × Json)) (n : ℕ) (tags : Tags) (nodes_field : List Json)
    (nodes : List ℕ) (feature_type : FeatureType)
    (ht : get_element_type o = Except.ok "way")
    (hi : get_id o = Except.ok n)
    (htags : get_tags o = Except.ok tags)
    (hnf : jsonGet o "nodes" = some (Json.arr nodes_field))
    (hparse : parse_u64_array nodes_field = some nodes)
    (hft : find_feature_type tags = some feature_type) :
    ((∀ v ∈ nodes, locs.lookup v = none) →
        pass2Step locs chunks (Json.obj o) = Except.ok chunks) ∧
      (nodes.filterMap (fun v => locs.lookup v) ≠ [] →
        pass2Step locs chunks (Json.obj o)
          = Except.ok (chunksModify chunks
              (ChunkIndex.from_vec2
                (({ longitude :=
                      ((nodes.filterMap (fun v => locs.lookup v)).map
                          GeoLocation.longitude).sum
                        / ((nodes.filterMap (fun v => locs.lookup v)).length : ℚ),
                    latitude :=
                      ((nodes.filterMap (fun v => locs.lookup v)).map
                          GeoLocation.latitude).sum
                        / ((nodes.filterMap (fun v => locs.lookup v)).length : ℚ) } :
                  GeoLocation).project { x := 0, y := 0 }))
              (fun c => c.insertFeature feature_type n
                { nodes := nodes, tags := tags }))) := by
  have hred : pass2Step locs chunks (Json.obj o)
      = (if (sumLocs locs nodes).2.2 = 0 then Except.ok chunks
        else Except.ok (chunksModify chunks
          (ChunkIndex.from_vec2
            (({ longitude := (sumLocs locs nodes).1 / ((sumLocs locs nodes).2.2 : ℚ),
                latitude := (sumLocs locs nodes).2.1 / ((sumLocs locs nodes).2.2 : ℚ) } :
              GeoLocation).project { x := 0, y := 0 }))
          (fun c => c.insertFeature feature_type n
            { nodes := nodes, tags := tags }))) := by
    simp only [pass2Step, ht, hi, htags, hnf, hparse, hft]
  constructor
  · intro hall
    have hnil : nodes.filterMap (fun v => locs.lookup v) = [] :=
      List.filterMap_eq_nil_iff.mpr hall
    rw [hred, sumLocs_eq, hnil]
    simp
  · intro hne
    have hlen : ¬((nodes.filterMap (fun v => locs.lookup v)).length = 0) := by
      simpa [List.length_eq_zero] using hne
    rw [hred, sumLocs_eq]
    rw [if_neg hlen]

/-- Witness for claim C6 on a concrete one-member way: with no resolvable
member it is dropped; with one resolvable member it is stored at the chunk
of that member's (mean) location. -/
theorem c6_witness :
    pass2Step [] [] (Json.obj exampleWayObj) = Except.ok [] ∧
      pass2Step exampleWayLocs [] (Json.obj exampleWayObj)
        = Except.ok (chunksModify []
            (ChunkIndex.from_vec2
              (({ longitude :=
                    (exampleWayResolved.map GeoLocation.longitude).sum
                      / (exampleWayResolved.length : ℚ),
                  latitude :=
                    (exampleWayResolved.map GeoLocation.latitude).sum
                      / (exampleWayResolved.length : ℚ) } :
                GeoLocation).project { x := 0, y := 0 }))
            (fun c => c.insertFeature FeatureType.Road 4
              { nodes := [7], tags := [("highway", "x")] })) := by
  constructor
  · exact (c6 [] [] exampleWayObj 4 [("highway", "x")] [Json.num 7] [7]
      FeatureType.Road rfl rfl rfl rfl rfl rfl).1 (fun v _ => rfl)
  · exact (c6 exampleWayLocs [] exampleWayObj 4 [("highway", "x")] [Json.num 7] [7]
      FeatureType.Road rfl rfl rfl rfl rfl rfl).2 (by decide)

end CityLoader
